import Mathlib

/-!
Shallow embedding of the core of the `nativeauthenticator` JupyterHub
authenticator (files `nativeauthenticator.py` and `handlers.py`), together
with theorems settling the specification claims about it.

Conventions of the embedding:
* machine time is modelled as whole seconds (`Nat`), and the injectable
  clock of the spec is an explicit `now : Nat` argument;
* the mutable `self.login_attempts` dict is a function
  `String → Option LoginAttempt` threaded explicitly;
* the user-record store (SQLAlchemy via `orm.UserInfo`, whose source file is
  not among the provided sources) is a function `String → Option UserInfo`;
* Python `return None` paths become `Option`/dedicated result constructors,
  and uncaught exceptions become explicit error constructors.
-/

namespace NativeAuth

/-- The configuration traits read by `NativeAuthenticator`
(`nativeauthenticator.py`, the traitlets at the top of the class).
`allow_self_approval_for` is a compiled regular expression in Python; it is
modelled as an optional predicate on the email string. -/
structure Config where
  secret_key : String := ""
  allow_self_approval_for : Option (String → Bool) := none
  check_common_password : Bool := false
  minimum_password_length : Nat := 1
  allowed_failed_logins : Nat := 0
  seconds_before_next_try : Nat := 600
  enable_signup : Bool := true
  open_signup : Bool := false
  ask_email_on_signup : Bool := false
  allow_2fa : Bool := false
  admin_users : List String := []
  allowed_users : List String := []
  /-- Modelled from the spec: the username rule of the host application
  (`super().validate_username`, JupyterHub code outside this repository);
  §4.5 only says a username may fail the username-validation rule of the
  host, so it is kept abstract as a configurable predicate. -/
  host_valid_username : String → Bool := fun _ => true

/-- One entry of `self.login_attempts`: the dict with keys `count` and
`time` built by `add_login_attempt`. -/
structure LoginAttempt where
  count : Nat
  time : Nat
  deriving DecidableEq, Repr

/-- The `self.login_attempts` dictionary, keyed by username. -/
abbrev Attempts := String → Option LoginAttempt

/-- ASCII lowercasing of one character (the effect of Python `str.lower` on
the ASCII usernames this authenticator deals with). -/
def lowerChar (c : Char) : Char :=
  if 65 ≤ c.toNat ∧ c.toNat ≤ 90 then Char.ofNat (c.toNat + 32) else c

/-- Modelled from the spec: `normalize_username` is inherited from the host
(JupyterHub) `Authenticator` class, outside this repository; §4.1 describes it
as case canonicalization consistent with how usernames are stored
(JupyterHub lowercases the username). -/
def normalize_username (username : String) : String :=
  ⟨username.data.map lowerChar⟩

/-- `NativeAuthenticator.add_login_attempt` (nativeauthenticator.py lines
176-182): create the entry with count 1 at the current time, or increment
the count and refresh the time. -/
def add_login_attempt (m : Attempts) (username : String) (now : Nat) : Attempts :=
  fun u =>
    if u = username then
      match m username with
      | none => some ⟨1, now⟩
      | some a => some ⟨a.count + 1, now⟩
    else m u

/-- The `seconds` field of a Python `timedelta` of `delta` whole (nonnegative)
seconds: the day part is discarded, `timedelta(seconds=delta).seconds` is
`delta % 86400`. -/
def timedeltaSeconds (delta : Nat) : Nat :=
  delta % 86400

/-- `NativeAuthenticator.can_try_to_login_again` (lines 184-193): true when
there is no entry, or when the `seconds` component of the timedelta between
`datetime.now()` and the stored attempt time exceeds
`seconds_before_next_try`. -/
def can_try_to_login_again (cfg : Config) (m : Attempts) (username : String)
    (now : Nat) : Bool :=
  match m username with
  | none => true
  | some a => cfg.seconds_before_next_try < timedeltaSeconds (now - a.time)

/-- `NativeAuthenticator.is_blocked` (lines 195-203): false when there is no
entry or the count is below `allowed_failed_logins`; otherwise blocked unless
`can_try_to_login_again` holds. -/
def is_blocked (cfg : Config) (m : Attempts) (username : String)
    (now : Nat) : Bool :=
  match m username with
  | none => false
  | some a =>
    if a.count < cfg.allowed_failed_logins then false
    else !(can_try_to_login_again cfg m username now)

/-- `NativeAuthenticator.successful_login` (lines 205-207): drop the entry. -/
def successful_login (m : Attempts) (username : String) : Attempts :=
  fun u => if u = username then none else m u

/-- `RecordFailure` iterated: `add_login_attempt` once per timestamp in the
list, in order. -/
def recordFailures (m : Attempts) (username : String) (times : List Nat) :
    Attempts :=
  times.foldl (fun acc t => add_login_attempt acc username t) m

/-- The failure count stored for a user, 0 when no entry exists. -/
def attemptCount (entry : Option LoginAttempt) : Nat :=
  match entry with
  | none => 0
  | some a => a.count

/-- Modelled from the spec: `orm.UserInfo` (its source file `orm.py` is not
among the provided sources); fields per §3 of the spec, with the names the
rest of the code uses (`username`, `password`, `email`, `is_authorized`,
`has_2fa`, `otp_secret`). -/
structure UserInfo where
  username : String
  password : String
  email : String := ""
  is_authorized : Bool := false
  has_2fa : Bool := false
  otp_secret : String := ""
  deriving DecidableEq, Repr

/-- The user-record store (SQLAlchemy session, external collaborator per §6),
modelled as a lookup keyed by username: `FindByUsername → UserRecord|absent`. -/
abbrev Db := String → Option UserInfo

/-- Modelled from the spec: the salted one-way password hash produced by
`bcrypt.hashpw` (external library); modelled as an injective tagging of the
password, which is all the claims here depend on. -/
def bcryptHash (pw : String) : String :=
  "bcrypt-hash-of:" ++ pw

/-- Modelled from the spec: `UserInfo.is_valid_password` (orm.py, not among
the provided sources); §4.1: "password hash matches (constant-time comparison
against the stored salted hash)". -/
def is_valid_password (user : UserInfo) (pw : String) : Bool :=
  user.password == bcryptHash pw

/-- Modelled from the spec: the time-step one-time code derived from the OTP
secret (§4.1, `UserInfo.is_valid_token` in the absent orm.py); the code for a
30-second time step, kept abstract but deterministic. -/
def totpCode (secret : String) (now : Nat) : String :=
  secret ++ ":" ++ toString (now / 30)

/-- Modelled from the spec: `UserInfo.is_valid_token` (orm.py, not among the
provided sources): the supplied code matches the current time-step code. -/
def is_valid_token (user : UserInfo) (code : Option String) (now : Nat) : Bool :=
  code == some (totpCode user.otp_secret now)

/-- The POST body of a login request, as read by `authenticate`: the
`username` and `password` fields and the optional second-factor code. -/
structure AuthData where
  username : String
  password : String
  twofa : Option String := none

/-- `NativeAuthenticator.authenticate` (nativeauthenticator.py lines
209-233): normalize the username, look the user up (returning `None` when
absent), consult the lockout tracker when `allowed_failed_logins` is nonzero,
evaluate the validations (`is_authorized`, password, and the 2FA code when
enrolled); on success clear the attempt entry and return the username, on
failure record a failed attempt. Returns the outcome together with the
updated `login_attempts` state. -/
def authenticate (cfg : Config) (db : Db) (m : Attempts) (data : AuthData)
    (now : Nat) : Option String × Attempts :=
  let username := normalize_username data.username
  match db (normalize_username username) with
  | none => (none, m)
  | some user =>
    if cfg.allowed_failed_logins ≠ 0 && is_blocked cfg m username now then
      (none, m)
    else
      let validations := user.is_authorized && is_valid_password user data.password
        && (if user.has_2fa then is_valid_token user data.twofa now else true)
      if validations then (some username, successful_login m username)
      else (none, add_login_attempt m username now)

/-- The payload signed into an approval token: the `username` and `expire`
fields, the latter an expiry timestamp (an ISO-8601 string in Python,
modelled as seconds). -/
structure TokenPayload where
  username : String
  expire : Nat
  deriving DecidableEq, Repr

/-- The canonical serialization of the payload that the signer signs
(django JSON serialization, modelled as any fixed deterministic encoding). -/
def serializePayload (p : TokenPayload) : String :=
  "username=" ++ p.username ++ ";expire=" ++ toString p.expire

/-- Modelled from the spec: the keyed signature of the external signer
collaborator (`django.core.signing.Signer`, §6: "a signature computed over
the canonical serialization of that payload with the configured secret"). -/
def signerSignature (key payload : String) : String :=
  "hmac<" ++ key ++ "|" ++ payload ++ ">"

/-- A signed token — payload plus signature — as an opaque value
(`Signer.sign_object` output, embeddable in a URL path segment). -/
structure SignedToken where
  payload : TokenPayload
  sig : String
  deriving DecidableEq, Repr

/-- Modelled from the spec: `Signer.sign_object` of the external signer —
attach the keyed signature of the serialized payload. -/
def sign_object (key : String) (p : TokenPayload) : SignedToken :=
  ⟨p, signerSignature key (serializePayload p)⟩

/-- Modelled from the spec: `Signer.unsign_object` of the external signer —
recompute the signature and compare; `none` models the `BadSignature`
exception. -/
def unsign_object (key : String) (t : SignedToken) : Option TokenPayload :=
  if t.sig = signerSignature key (serializePayload t.payload) then
    some t.payload
  else none

/-- The approval URL built by `generate_approval_url`: the fixed
`"/confirm/"` path prefix followed by the signed token. -/
structure ApprovalUrl where
  pathPrefix : String
  slug : SignedToken
  deriving DecidableEq, Repr

/-- `NativeAuthenticator.generate_approval_url` (lines 307-314): default the
expiry to `now + 15` minutes, sign the username-and-expiry payload with
`secret_key`,
and prepend `"/confirm/"`. -/
def generate_approval_url (cfg : Config) (username : String)
    (when : Option Nat) (now : Nat) : ApprovalUrl :=
  let w := when.getD (now + 15 * 60)
  ⟨"/confirm/", sign_object cfg.secret_key ⟨username, w⟩⟩

/-- `AuthorizeHandler.validate_slug` (handlers.py lines 192-205): unsign the
slug (a `BadSignature` becomes a `ValueError`), then fail with
`"The URL has expired"` when `datetime.now(tz.utc) > obj["expire"]`,
otherwise return the payload. -/
def validate_slug (slug : SignedToken) (key : String) (now : Nat) :
    Except String TokenPayload :=
  match unsign_object key slug with
  | none => .error "BadSignature"
  | some obj =>
    if obj.expire < now then .error "The URL has expired"
    else .ok obj

/-- `NativeAuthenticator.setup_self_approval` (lines 159-169), run at the end
of `__init__`: when `allow_self_approval_for` is configured, force
`ask_email_on_signup` to true and raise
`ValueError("Secret_key must be a random string of len > 8 ...")` when
`len(secret_key) < 8`. The conflicting `open_signup` case only logs an error
and the django settings configuration is an external side effect; neither
changes the outcome. `Except.error` models the raised `ValueError`. -/
def setup_self_approval (cfg : Config) : Except String Config :=
  match cfg.allow_self_approval_for with
  | none => .ok cfg
  | some _ =>
    if cfg.secret_key.length < 8 then
      .error "Secret_key must be a random string of len > 8 when using self_approval"
    else .ok { cfg with ask_email_on_signup := true }

/-- Whether an `Except` is a success. -/
def exceptOk {ε α : Type} (e : Except ε α) : Bool :=
  match e with
  | .ok _ => true
  | .error _ => false

/-- `NativeAuthenticator.is_password_common` (lines 235-243): membership of
the password in the fixed denylist file `common-credentials.txt`, which is
data external to the two provided source files and is modelled as the
explicit list argument. -/
def is_password_common (commonPasswords : List String) (pw : String) : Bool :=
  commonPasswords.contains pw

/-- `NativeAuthenticator.is_password_strong` (lines 245-251): length at least
`minimum_password_length`, and — only when `check_common_password` is set —
not in the common-password denylist. -/
def is_password_strong (cfg : Config) (commonPasswords : List String)
    (pw : String) : Bool :=
  (decide (cfg.minimum_password_length ≤ pw.length))
    && (!cfg.check_common_password || !(is_password_common commonPasswords pw))

/-- `NativeAuthenticator.validate_username` (lines 336-340): reject a
username containing a comma or a space, then defer to the host rule
(`super().validate_username`, modelled by `cfg.host_valid_username`). -/
def validate_username (cfg : Config) (username : String) : Bool :=
  !(username.data.contains ',') && !(username.data.contains ' ')
    && cfg.host_valid_username username

/-- The outcome of `create_user`: the created record, the silent `return None`
taken on conflict / weak password / invalid username / disabled signup /
record-construction failure, or an uncaught exception escaping from
`send_approval_email` (SMTP failure). -/
inductive CreateUserResult where
  | created (u : UserInfo)
  | rejected
  | mailError
  deriving DecidableEq, Repr

/-- `NativeAuthenticator.create_user` (lines 259-305): normalize the
username; `return` (None) when the user already exists, the password is not
strong, the username is invalid, or signup is disabled; hash the password and
build the record, authorizing it immediately when `open_signup` is set or the
username is an admin or allowed user; when `allow_self_approval_for` is
configured and the email matches the pattern, generate the approval URL and
send the approval email BEFORE the record is added to the store — a mail
failure (`mailOk = false`, an SMTP exception in `send_approval_email`)
therefore propagates with the store untouched; otherwise add and commit the
record. Returns the outcome together with the updated store. -/
def create_user (cfg : Config) (commonPasswords : List String) (db : Db)
    (username pw email : String) (has_2fa : Bool) (mailOk : Bool)
    (now : Nat) : CreateUserResult × Db :=
  let u := normalize_username username
  if (db (normalize_username u)).isSome then (.rejected, db)
  else if !(is_password_strong cfg commonPasswords pw)
      || !(validate_username cfg u) then (.rejected, db)
  else if !cfg.enable_signup then (.rejected, db)
  else
    let authed := cfg.admin_users ++ cfg.allowed_users
    let user_info : UserInfo :=
      { username := u
        password := bcryptHash pw
        email := email
        has_2fa := has_2fa
        is_authorized := cfg.open_signup || authed.contains u }
    let mailFails :=
      match cfg.allow_self_approval_for with
      | none => false
      | some pattern => pattern user_info.email && !mailOk
    if mailFails then (.mailError, db)
    else
      (.created user_info, fun x => if x = u then some user_info else db x)

/-- `NativeAuthenticator.change_password` (lines 331-334): look the user up
(by normalized username, via `get_user`), overwrite the password with the
bcrypt hash of the new password and commit. No password-strength check is
performed. `none` models the `AttributeError` the Python code would raise
when the user does not exist. -/
def change_password (db : Db) (username new_password : String) : Option Db :=
  match db (normalize_username username) with
  | none => none
  | some user =>
    some (fun x =>
      if x = normalize_username username then
        some { user with password := bcryptHash new_password }
      else db x)

/-- Modelled from the spec: `orm.UserInfo.change_authorization` (orm.py is
not among the provided sources); §3 lifecycle: `isAuthorized` is mutated by
an authorization decision, here flipped for the named user. -/
def change_authorization (db : Db) (username : String) : Db :=
  fun x =>
    if x = username then
      (db username).map (fun r => { r with is_authorized := !r.is_authorized })
    else db x

/-- The observable outcome of the confirm request: a rendered message page,
or an uncaught exception (`crash`). -/
inductive PageResult where
  | page (msg : String)
  | crash (err : String)
  deriving DecidableEq, Repr

/-- `AuthorizeHandler.get` (handlers.py lines 163-189): when
`allow_self_approval_for` is configured, validate the slug (a `ValueError`
leaves `must_stop` true and renders "Invalid URL"); on success look the named
user up with `UserInfo.find` and read `usr.is_authorized` — when no record
exists `usr` is `None` and the attribute access raises (modelled as
`crash "AttributeError"`); an unauthorized user is authorized, an already
authorized one reported as such. Returns the page together with the updated
store. -/
def authorize_get (cfg : Config) (db : Db) (slug : SignedToken) (now : Nat) :
    PageResult × Db :=
  if cfg.allow_self_approval_for.isSome then
    match validate_slug slug cfg.secret_key now with
    | .error _ => (.page "Invalid URL", db)
    | .ok data =>
      match db data.username with
      | none => (.crash "AttributeError", db)
      | some usr =>
        if !usr.is_authorized then
          (.page (data.username ++ " has been authorized"),
            change_authorization db data.username)
        else (.page (data.username ++ " was already authorized"), db)
  else (.page "Invalid URL", db)

/-! Helper lemmas about the lockout tracker. -/

theorem add_login_attempt_self (m : Attempts) (u : String) (t : Nat) :
    add_login_attempt m u t u = some ⟨attemptCount (m u) + 1, t⟩ := by
  unfold add_login_attempt attemptCount
  simp only [if_pos rfl]
  cases m u <;> rfl

theorem recordFailures_apply (u : String) (ts : List Nat) :
    ∀ (m : Attempts), ts ≠ [] →
      recordFailures m u ts u
        = some ⟨attemptCount (m u) + ts.length, ts.getLastD 0⟩ := by
  induction ts with
  | nil => intro m h; exact absurd rfl h
  | cons t rest ih =>
    intro m _
    by_cases hr : rest = []
    · subst hr
      simpa [recordFailures, List.getLastD_cons] using add_login_attempt_self m u t
    · have step : recordFailures m u (t :: rest)
          = recordFailures (add_login_attempt m u t) u rest := rfl
      rw [step, ih (add_login_attempt m u t) hr, add_login_attempt_self]
      obtain ⟨b, l, rfl⟩ := List.exists_cons_of_ne_nil hr
      simp only [attemptCount, List.getLastD_cons, List.length_cons,
        Option.some.injEq, LoginAttempt.mk.injEq]
      exact ⟨by omega, trivial⟩

/-- A user whose last failure happened at the very moment of the check is
blocked as soon as the count has reached the threshold: the elapsed seconds
component is 0, which never exceeds `seconds_before_next_try`. -/
theorem is_blocked_at_entry_time (cfg : Config) (m : Attempts) (u : String)
    (a : LoginAttempt) (hentry : m u = some a)
    (hcount : cfg.allowed_failed_logins ≤ a.count) :
    is_blocked cfg m u a.time = true := by
  have h1 : ¬(a.count < cfg.allowed_failed_logins) := by omega
  simp [is_blocked, can_try_to_login_again, hentry, h1, timedeltaSeconds]

/-! Theorems settling the claims. -/

/-- Claim C1: the claim states that a user whose failure count has reached
`allowed_failed_logins` is no longer blocked whenever the total elapsed time
since the last failure exceeds `seconds_before_next_try`, including elapsed
durations of one day or more. The code computes the `seconds` field of the
Python timedelta, i.e. the elapsed time modulo 86400 with the day part
discarded, so this theorem evaluates the code at the failing input: with
`allowed_failed_logins = 1` and `seconds_before_next_try = 600`, after a
single failure recorded at time 0, `is_blocked` is STILL true 86401 seconds
(one day and one second) later, because `86401 % 86400 = 1` is not greater
than 600. -/
theorem c1_blocked_after_one_day_elapsed :
    is_blocked { allowed_failed_logins := 1, seconds_before_next_try := 600 }
      (add_login_attempt (fun _ => none) "alice" 0) "alice" 86401 = true := by
  decide

/-- Claim C6: (i) a username with no recorded failure entry is never blocked;
(ii) after exactly `allowed_failed_logins` (at least 1) consecutive
`add_login_attempt` calls starting from no entry, `is_blocked` is true
immediately (at the moment of the last failure); (iii) once the lockout
window has elapsed the user is no longer blocked, yet the entry persists, and
a further `add_login_attempt` at that moment makes `is_blocked` true again
immediately. -/
theorem c6_lockout_lifecycle (cfg : Config) (u : String) (m mw : Attempts)
    (ts : List Nat) (a : LoginAttempt) (anytime now : Nat)
    (hnone : m u = none)
    (hlen : ts.length = cfg.allowed_failed_logins)
    (hpos : 1 ≤ cfg.allowed_failed_logins)
    (hentry : mw u = some a)
    (hcount : cfg.allowed_failed_logins ≤ a.count)
    (helapsed : cfg.seconds_before_next_try < timedeltaSeconds (now - a.time)) :
    is_blocked cfg m u anytime = false
    ∧ is_blocked cfg (recordFailures m u ts) u (ts.getLastD 0) = true
    ∧ is_blocked cfg mw u now = false
    ∧ is_blocked cfg (add_login_attempt mw u now) u now = true := by
  refine ⟨?_, ?_, ?_, ?_⟩
  · simp [is_blocked, hnone]
  · have hne : ts ≠ [] := by
      intro h
      rw [h] at hlen
      simp only [List.length_nil] at hlen
      omega
    have happ := recordFailures_apply u ts m hne
    exact is_blocked_at_entry_time cfg _ u _ happ
      (by simp only [hnone, attemptCount]; omega)
  · have h1 : ¬(a.count < cfg.allowed_failed_logins) := by omega
    simp [is_blocked, can_try_to_login_again, hentry, h1, helapsed]
  · have hself := add_login_attempt_self mw u now
    exact is_blocked_at_entry_time cfg _ u _ hself
      (by simp only [hentry, attemptCount]; omega)

/-- Witness for C6 at a concrete input: two allowed failed logins, failures
at times 3 and 5, a separate state with a saturated entry recorded at time 0
checked at time 601 with a 600-second window. -/
theorem c6_lockout_lifecycle_witness :
    ((fun _ => none : Attempts) "alice" = none)
    ∧ ([3, 5].length
        = ({ allowed_failed_logins := 2, seconds_before_next_try := 600 } :
            Config).allowed_failed_logins)
    ∧ (1 ≤ ({ allowed_failed_logins := 2, seconds_before_next_try := 600 } :
            Config).allowed_failed_logins)
    ∧ ((fun x => if x = "alice" then some ⟨2, 0⟩ else none : Attempts) "alice"
        = some ⟨2, 0⟩)
    ∧ (({ allowed_failed_logins := 2, seconds_before_next_try := 600 } :
            Config).allowed_failed_logins ≤ (⟨2, 0⟩ : LoginAttempt).count)
    ∧ (({ allowed_failed_logins := 2, seconds_before_next_try := 600 } :
            Config).seconds_before_next_try
        < timedeltaSeconds (601 - (⟨2, 0⟩ : LoginAttempt).time))
    ∧ (is_blocked { allowed_failed_logins := 2, seconds_before_next_try := 600 }
          (fun _ => none) "alice" 42 = false
        ∧ is_blocked { allowed_failed_logins := 2, seconds_before_next_try := 600 }
            (recordFailures (fun _ => none) "alice" [3, 5]) "alice"
            ([3, 5].getLastD 0) = true
        ∧ is_blocked { allowed_failed_logins := 2, seconds_before_next_try := 600 }
            (fun x => if x = "alice" then some ⟨2, 0⟩ else none) "alice" 601 = false
        ∧ is_blocked { allowed_failed_logins := 2, seconds_before_next_try := 600 }
            (add_login_attempt (fun x => if x = "alice" then some ⟨2, 0⟩ else none)
              "alice" 601) "alice" 601 = true) :=
  ⟨rfl, by decide, by decide, by decide, by decide, by decide,
    c6_lockout_lifecycle
      { allowed_failed_logins := 2, seconds_before_next_try := 600 }
      "alice" (fun _ => none) (fun x => if x = "alice" then some ⟨2, 0⟩ else none)
      [3, 5] ⟨2, 0⟩ 42 601 rfl (by decide) (by decide) (by decide) (by decide)
      (by decide)⟩

/-- Claim C7: `authenticate` with a correct password but an unauthorized
account produces exactly the same outcome — same returned value and same
resulting lockout state — as `authenticate` with an incorrect password:
`is_authorized` and the password check sit in the same `all(validations)`
conjunction, and every failure of it takes the same
`add_login_attempt`-then-`None` path. -/
theorem c7_unauthorized_equals_wrong_password (cfg : Config) (db : Db)
    (m : Attempts) (u p q : String) (c : Option String) (now : Nat)
    (user : UserInfo)
    (hfind : db (normalize_username (normalize_username u)) = some user)
    (hunauth : user.is_authorized = false)
    (hgood : is_valid_password user p = true)
    (hbad : is_valid_password user q = false) :
    authenticate cfg db m ⟨u, p, c⟩ now = authenticate cfg db m ⟨u, q, c⟩ now := by
  simp [authenticate, hfind, hunauth]

/-- Witness for C7 at a concrete input: a pending (unauthorized) user with
password "pw", compared against the wrong password "nope". -/
theorem c7_unauthorized_equals_wrong_password_witness :
    ((fun x => if x = "alice"
        then some ⟨"alice", bcryptHash "pw", "", false, false, ""⟩
        else none : Db) (normalize_username (normalize_username "alice"))
      = some ⟨"alice", bcryptHash "pw", "", false, false, ""⟩)
    ∧ ((⟨"alice", bcryptHash "pw", "", false, false, ""⟩ :
          UserInfo).is_authorized = false)
    ∧ (is_valid_password ⟨"alice", bcryptHash "pw", "", false, false, ""⟩ "pw"
        = true)
    ∧ (is_valid_password ⟨"alice", bcryptHash "pw", "", false, false, ""⟩ "nope"
        = false)
    ∧ (authenticate {} (fun x => if x = "alice"
          then some ⟨"alice", bcryptHash "pw", "", false, false, ""⟩ else none)
          (fun _ => none) ⟨"alice", "pw", none⟩ 7
        = authenticate {} (fun x => if x = "alice"
          then some ⟨"alice", bcryptHash "pw", "", false, false, ""⟩ else none)
          (fun _ => none) ⟨"alice", "nope", none⟩ 7) :=
  ⟨by decide, rfl, by decide, by decide,
    c7_unauthorized_equals_wrong_password {}
      (fun x => if x = "alice"
        then some ⟨"alice", bcryptHash "pw", "", false, false, ""⟩ else none)
      (fun _ => none) "alice" "pw" "nope" none 7
      ⟨"alice", bcryptHash "pw", "", false, false, ""⟩
      (by decide) rfl (by decide) (by decide)⟩

/-- Claim C2: a freshly generated token round-trips: for every username and
every configured secret of at least 8 characters, `generate_approval_url`
followed immediately by `validate_slug` on the slug after the `"/confirm/"`
prefix returns that same username (with the default 15-minute expiry) and no
error. -/
theorem c2_token_round_trip (cfg : Config) (username : String) (now : Nat)
    (hkey : 8 ≤ cfg.secret_key.length) :
    validate_slug (generate_approval_url cfg username none now).slug
        cfg.secret_key now
      = Except.ok ⟨username, now + 15 * 60⟩ := by
  unfold validate_slug generate_approval_url sign_object unsign_object
  simp only [Option.getD_none, if_true]
  have h : ¬(now + 15 * 60 < now) := by omega
  simp [h]

/-- Witness for C2 at a concrete input: secret "abcdefgh" (8 characters),
username "bob", generated and verified at time 0. -/
theorem c2_token_round_trip_witness :
    (8 ≤ ({ secret_key := "abcdefgh" } : Config).secret_key.length)
    ∧ (validate_slug
          (generate_approval_url { secret_key := "abcdefgh" } "bob" none 0).slug
          ({ secret_key := "abcdefgh" } : Config).secret_key 0
        = Except.ok ⟨"bob", 0 + 15 * 60⟩) :=
  ⟨by decide, c2_token_round_trip { secret_key := "abcdefgh" } "bob" 0 (by decide)⟩

/-- Claim C3 counterexample: the claim requires verification to fail with an
expiry error at the exact instant `now = issuedAt + T`, but the code checks
`datetime.now(tz.utc) > obj["expire"]` strictly: a token issued at time 0
expiring at time 100 still validates successfully at time 100. -/
theorem c3_verifies_at_exact_expiry_instant :
    validate_slug
        (generate_approval_url { secret_key := "abcdefgh" } "bob" (some 100) 0).slug
        "abcdefgh" 100
      = Except.ok ⟨"bob", 100⟩ := by
  rfl

/-- Claim C3 amended: a token generated with expiry `issuedAt + T` verifies
successfully at every `now ≤ issuedAt + T` (the exact expiry instant
included) and fails with the expiry error exactly when `now > issuedAt + T`. -/
theorem c3_expiry_boundary (cfg : Config) (username : String)
    (issuedAt T now : Nat) :
    validate_slug
        (generate_approval_url cfg username (some (issuedAt + T)) issuedAt).slug
        cfg.secret_key now
      = if now ≤ issuedAt + T then Except.ok ⟨username, issuedAt + T⟩
        else Except.error "The URL has expired" := by
  unfold validate_slug generate_approval_url sign_object unsign_object
  simp only [Option.getD_some, if_true]
  by_cases h : now ≤ issuedAt + T
  · have h2 : ¬(issuedAt + T < now) := by omega
    simp [h, h2]
  · have h2 : issuedAt + T < now := by omega
    simp [h, h2]

/-- Claim C8: when self-approval is configured, `setup_self_approval` raises
(`ValueError`) exactly when the secret key is shorter than 8 characters, and
a secret of exactly 8 characters is accepted. -/
theorem c8_secret_length_gate (cfg : Config)
    (hconf : cfg.allow_self_approval_for.isSome = true) :
    (exceptOk (setup_self_approval cfg) = false ↔ cfg.secret_key.length < 8)
    ∧ (cfg.secret_key.length = 8 →
        exceptOk (setup_self_approval cfg) = true) := by
  obtain ⟨p, hp⟩ := Option.isSome_iff_exists.mp hconf
  constructor
  · unfold setup_self_approval
    rw [hp]
    by_cases h : cfg.secret_key.length < 8
    · simp [h, exceptOk]
    · simp [h, exceptOk]
  · intro h8
    unfold setup_self_approval
    rw [hp, if_neg (by omega)]
    rfl

/-- Witness for C8 at a concrete input: self-approval configured with the
8-character secret "abcdefgh". -/
theorem c8_secret_length_gate_witness :
    (({ secret_key := "abcdefgh",
        allow_self_approval_for := some (fun _ => true) } :
          Config).allow_self_approval_for.isSome = true)
    ∧ ((exceptOk (setup_self_approval
          { secret_key := "abcdefgh",
            allow_self_approval_for := some (fun _ => true) }) = false
        ↔ ({ secret_key := "abcdefgh",
             allow_self_approval_for := some (fun _ => true) } :
              Config).secret_key.length < 8)
      ∧ (({ secret_key := "abcdefgh",
            allow_self_approval_for := some (fun _ => true) } :
              Config).secret_key.length = 8 →
          exceptOk (setup_self_approval
            { secret_key := "abcdefgh",
              allow_self_approval_for := some (fun _ => true) }) = true)) :=
  ⟨rfl, c8_secret_length_gate
    { secret_key := "abcdefgh", allow_self_approval_for := some (fun _ => true) }
    rfl⟩

/-- Claim C9: `change_password` succeeds for every existing user and every
new password — the password-strength hypothesis `hweak` shows a password the
configured policy rejects is accepted all the same — storing the bcrypt hash
of the new password; `is_password_strong` is never consulted. -/
theorem c9_change_password_skips_policy (cfg : Config)
    (commonPasswords : List String) (db : Db) (u pw : String)
    (user : UserInfo)
    (hfind : db (normalize_username u) = some user)
    (hweak : is_password_strong cfg commonPasswords pw = false) :
    ∃ db', change_password db u pw = some db'
      ∧ db' (normalize_username u)
          = some { user with password := bcryptHash pw } := by
  unfold change_password
  rw [hfind]
  exact ⟨_, rfl, by rw [if_pos rfl]⟩

/-- Witness for C9 at a concrete input: with a minimum password length of 8,
the one-character password "x" (rejected by the policy) is still accepted by
`change_password` for the existing user "alice". -/
theorem c9_change_password_skips_policy_witness :
    ((fun x => if x = "alice"
        then some ⟨"alice", bcryptHash "old", "", true, false, ""⟩
        else none : Db) (normalize_username "alice")
      = some ⟨"alice", bcryptHash "old", "", true, false, ""⟩)
    ∧ (is_password_strong { minimum_password_length := 8 } [] "x" = false)
    ∧ (∃ db', change_password
          (fun x => if x = "alice"
            then some ⟨"alice", bcryptHash "old", "", true, false, ""⟩
            else none) "alice" "x" = some db'
        ∧ db' (normalize_username "alice")
            = some { (⟨"alice", bcryptHash "old", "", true, false, ""⟩ : UserInfo)
                with password := bcryptHash "x" }) :=
  ⟨by decide, by decide,
    c9_change_password_skips_policy { minimum_password_length := 8 } []
      (fun x => if x = "alice"
        then some ⟨"alice", bcryptHash "old", "", true, false, ""⟩ else none)
      "alice" "x" ⟨"alice", bcryptHash "old", "", true, false, ""⟩
      (by decide) (by decide)⟩

/-- Claim C4 counterexample: self-approval is configured, the email matches
the pattern, and mail delivery fails; `create_user` returns the propagated
mail error with the store untouched — the pending record for "bob" is NOT
persisted, contradicting the claim that the new user record is still
persisted to the record store. -/
theorem c4_mail_failure_record_lost :
    (create_user
        { allow_self_approval_for := some (fun _ => true),
          secret_key := "abcdefgh" }
        [] (fun _ => none) "bob" "longpassword" "bob@x.com" false false 0).1
      = CreateUserResult.mailError
    ∧ (create_user
        { allow_self_approval_for := some (fun _ => true),
          secret_key := "abcdefgh" }
        [] (fun _ => none) "bob" "longpassword" "bob@x.com" false false 0).2 "bob"
      = none := by
  exact ⟨rfl, rfl⟩

/-- Claim C4 amended: when self-approval is configured and the email matches
the pattern, a failure of the mail-delivery collaborator aborts `create_user`
BEFORE the record is persisted: the mail failure propagates as an error
distinct from the silent record-creation rejection, and the new user record
is not persisted — the store is returned unchanged. -/
theorem c4_mail_failure_aborts_creation (cfg : Config)
    (commonPasswords : List String) (db : Db)
    (username pw email : String) (h2fa : Bool) (now : Nat)
    (pattern : String → Bool)
    (habs : db (normalize_username (normalize_username username)) = none)
    (hstrong : is_password_strong cfg commonPasswords pw = true)
    (hvalid : validate_username cfg (normalize_username username) = true)
    (hsignup : cfg.enable_signup = true)
    (hpat : cfg.allow_self_approval_for = some pattern)
    (hmatch : pattern email = true) :
    create_user cfg commonPasswords db username pw email h2fa false now
      = (CreateUserResult.mailError, db) := by
  simp [create_user, habs, hstrong, hvalid, hsignup, hpat, hmatch]

/-- Witness for the amended C4 at a concrete input: the signup for "bob"
with a failing mail collaborator returns the mail error and the unchanged
(empty) store. -/
theorem c4_mail_failure_aborts_creation_witness :
    ((fun _ => none : Db)
        (normalize_username (normalize_username "bob")) = none)
    ∧ (is_password_strong
        { allow_self_approval_for := some (fun _ => true),
          secret_key := "abcdefgh" } [] "longpassword" = true)
    ∧ (validate_username
        { allow_self_approval_for := some (fun _ => true),
          secret_key := "abcdefgh" } (normalize_username "bob") = true)
    ∧ (({ allow_self_approval_for := some (fun _ => true),
          secret_key := "abcdefgh" } : Config).enable_signup = true)
    ∧ ((fun _ => true : String → Bool) "bob@x.com" = true)
    ∧ (create_user
          { allow_self_approval_for := some (fun _ => true),
            secret_key := "abcdefgh" }
          [] (fun _ => none) "bob" "longpassword" "bob@x.com" false false 0
        = (CreateUserResult.mailError, fun _ => none)) :=
  ⟨rfl, by decide, by decide, rfl, rfl,
    c4_mail_failure_aborts_creation
      { allow_self_approval_for := some (fun _ => true),
        secret_key := "abcdefgh" }
      [] (fun _ => none) "bob" "longpassword" "bob@x.com" false 0
      (fun _ => true) rfl (by decide) (by decide) rfl rfl rfl⟩

/-- Claim C5 counterexample: the conflict outcome of `create_user` is NOT
surfaced distinctly — a signup for the already-existing "bob", a signup with
a password shorter than the 20-character minimum, and a signup with a comma
in the username all return the very same bare rejection (Python `None`). -/
theorem c5_conflict_not_distinct :
    (create_user {} []
        (fun x => if x = "bob"
          then some ⟨"bob", bcryptHash "pw", "", false, false, ""⟩ else none)
        "bob" "longpassword" "" false true 0).1
      = CreateUserResult.rejected
    ∧ (create_user { minimum_password_length := 20 } [] (fun _ => none)
        "carol" "short" "" false true 0).1
      = CreateUserResult.rejected
    ∧ (create_user {} [] (fun _ => none)
        "da,ve" "longpassword" "" false true 0).1
      = CreateUserResult.rejected := by
  exact ⟨by decide, by decide, by decide⟩

/-- Claim C5 amended: `create_user` does fail when a record for the
normalized username already exists, but the conflict is NOT distinguishable
from the WeakPassword and InvalidUsername outcomes in the result of
`create_user` itself: all three failure kinds return the same bare rejection
(Python `None`) with the store unchanged. (The signup handler distinguishes
a taken username only by calling `user_exists` separately beforehand.) -/
theorem c5_all_rejections_identical (cfga cfgb cfgc : Config)
    (cpa cpb cpc : List String) (dba dbb dbc : Db)
    (ua ub uc pa pb pc ea eb ec : String) (fa fb fc moa mob moc : Bool)
    (ta tb tc : Nat)
    (hconflict : (dba (normalize_username (normalize_username ua))).isSome = true)
    (habsb : dbb (normalize_username (normalize_username ub)) = none)
    (hweak : is_password_strong cfgb cpb pb = false)
    (habsc : dbc (normalize_username (normalize_username uc)) = none)
    (hinvalid : validate_username cfgc (normalize_username uc) = false) :
    create_user cfga cpa dba ua pa ea fa moa ta = (CreateUserResult.rejected, dba)
    ∧ create_user cfgb cpb dbb ub pb eb fb mob tb
        = (CreateUserResult.rejected, dbb)
    ∧ create_user cfgc cpc dbc uc pc ec fc moc tc
        = (CreateUserResult.rejected, dbc) := by
  refine ⟨?_, ?_, ?_⟩
  · simp [create_user, hconflict]
  · simp [create_user, habsb, hweak]
  · simp [create_user, habsc, hinvalid]

/-- Witness for the amended C5 at concrete inputs: the three rejection
scenarios of `c5_conflict_not_distinct`, shown to take the hypotheses of the
amended theorem. -/
theorem c5_all_rejections_identical_witness :
    (((fun x => if x = "bob"
        then some ⟨"bob", bcryptHash "pw", "", false, false, ""⟩ else none : Db)
        (normalize_username (normalize_username "bob"))).isSome = true)
    ∧ ((fun _ => none : Db)
        (normalize_username (normalize_username "carol")) = none)
    ∧ (is_password_strong { minimum_password_length := 20 } [] "short" = false)
    ∧ ((fun _ => none : Db)
        (normalize_username (normalize_username "da,ve")) = none)
    ∧ (validate_username {} (normalize_username "da,ve") = false)
    ∧ (create_user {} []
          (fun x => if x = "bob"
            then some ⟨"bob", bcryptHash "pw", "", false, false, ""⟩ else none)
          "bob" "longpassword" "" false true 0
        = (CreateUserResult.rejected,
            fun x => if x = "bob"
              then some ⟨"bob", bcryptHash "pw", "", false, false, ""⟩ else none)
      ∧ create_user { minimum_password_length := 20 } [] (fun _ => none)
          "carol" "short" "" false true 0
        = (CreateUserResult.rejected, fun _ => none)
      ∧ create_user {} [] (fun _ => none)
          "da,ve" "longpassword" "" false true 0
        = (CreateUserResult.rejected, fun _ => none)) :=
  ⟨by decide, rfl, by decide, rfl, by decide,
    c5_all_rejections_identical {} { minimum_password_length := 20 } {}
      [] [] []
      (fun x => if x = "bob"
        then some ⟨"bob", bcryptHash "pw", "", false, false, ""⟩ else none)
      (fun _ => none) (fun _ => none)
      "bob" "carol" "da,ve" "longpassword" "short" "longpassword" "" "" ""
      false false false true true true 0 0 0
      (by decide) rfl (by decide) rfl (by decide)⟩

/-- Claim C10: when self-approval is configured and the slug validates to a
payload whose username has no record in the store, `AuthorizeHandler.get`
dereferences the absent record (`usr.is_authorized` with `usr = None`) and
raises instead of rendering any message page; the store is left unchanged. -/
theorem c10_confirm_crashes_on_missing_user (cfg : Config) (db : Db)
    (slug : SignedToken) (now : Nat) (data : TokenPayload)
    (hconf : cfg.allow_self_approval_for.isSome = true)
    (hvalid : validate_slug slug cfg.secret_key now = Except.ok data)
    (habsent : db data.username = none) :
    authorize_get cfg db slug now = (PageResult.crash "AttributeError", db) := by
  simp [authorize_get, hconf, hvalid, habsent]

/-- Witness for C10 at a concrete input: a correctly signed token for the
unknown username "ghost" against an empty store. -/
theorem c10_confirm_crashes_on_missing_user_witness :
    (({ allow_self_approval_for := some (fun _ => true),
        secret_key := "abcdefgh" } :
          Config).allow_self_approval_for.isSome = true)
    ∧ (validate_slug (sign_object "abcdefgh" ⟨"ghost", 100⟩)
          ({ allow_self_approval_for := some (fun _ => true),
             secret_key := "abcdefgh" } : Config).secret_key 0
        = Except.ok ⟨"ghost", 100⟩)
    ∧ ((fun _ => none : Db) (⟨"ghost", 100⟩ : TokenPayload).username = none)
    ∧ (authorize_get
          { allow_self_approval_for := some (fun _ => true),
            secret_key := "abcdefgh" }
          (fun _ => none) (sign_object "abcdefgh" ⟨"ghost", 100⟩) 0
        = (PageResult.crash "AttributeError", fun _ => none)) :=
  ⟨rfl, by rfl, rfl,
    c10_confirm_crashes_on_missing_user
      { allow_self_approval_for := some (fun _ => true),
        secret_key := "abcdefgh" }
      (fun _ => none) (sign_object "abcdefgh" ⟨"ghost", 100⟩) 0 ⟨"ghost", 100⟩
      rfl (by rfl) rfl⟩

end NativeAuth
